import Mathlib

/-!
Verification of the session coordination engine of the homes-ai backend
(`src/backend/main.py`).  The coordinator receives worker replies
(scoping, research, general, Mapbox geocoding, local-discovery POI) and
merges them into a REST response.  This file embeds the coordinator's
data model and handlers as executable Lean definitions and proves the
spec's testable properties about them.

Modelling conventions:
* Python dict values are modelled by the inductive `Val`; floats carry no
  arithmetic anywhere in the coordinator, so `latitude`/`longitude` are
  modelled as opaque numeric atoms (`Int`).
* The process-wide `sessions` dict is a total function from session id to
  a `Session` record; a key that was never written holds the default
  record, which matches the code because every read of an absent key goes
  through `dict.get` with the corresponding default (or creates `{}`).
* The async wait loops of `handle_chat` are abstracted by a `Scenario`:
  the set of worker replies that arrive within the bounded waits
  (`none`/`[]` = the reply never arrives in time).  Replies are delivered
  by the very handler functions translated from the source, in causal
  order (scoping, then general/research, then geocoding, then POI).
-/

/-- JSON-like values stored in Python dicts of the coordinator. -/
inductive Val where
  | null : Val
  | str (s : String) : Val
  | num (n : Int) : Val
  | list (elems : List Val) : Val
  | dict (fields : List (String × Val)) : Val

/-- A Python dict with string keys, in insertion order. -/
abbrev PyDict := List (String × Val)

/-- `d[k]` lookup returning `none` when the key is absent (first binding wins;
dicts built by the coordinator never hold duplicate keys). -/
def dictGet? (d : PyDict) (k : String) : Option Val :=
  (d.find? (fun p => p.1 = k)).map (fun p => p.2)

/-- `d[k] = v` assignment: replaces the first binding of `k`, or appends. -/
def dictSet (d : PyDict) (k : String) (v : Val) : PyDict :=
  match d with
  | [] => [(k, v)]
  | p :: rest => if p.1 = k then (k, v) :: rest else p :: dictSet rest k v

/-- Truthiness of Python `Optional[str]`: `None` and `""` are falsy. -/
def truthyOptStr (o : Option String) : Bool :=
  match o with
  | none => false
  | some s => s ≠ ""

/-- Validity of the digit part of a CPython `int()` literal after the first
character: digits, with a single underscore allowed only between digits. -/
def pyDigitsAux : List Char → Bool
  | [] => true
  | c :: rest =>
    if c = '_' then
      match rest with
      | [] => false
      | d :: rest2 => d.isDigit && pyDigitsAux rest2
    else c.isDigit && pyDigitsAux rest

/-- A nonempty digit string (underscores only between digits, none leading). -/
def pyDigitsOk : List Char → Bool
  | [] => false
  | c :: rest => c.isDigit && pyDigitsAux rest

/-- Numeric value of a digit string, ignoring the grouping underscores. -/
def digitsVal (cs : List Char) : Nat :=
  cs.foldl (fun acc c => if c = '_' then acc else acc * 10 + (c.toNat - '0'.toNat)) 0

/-- CPython `int(s)` on the strings the coordinator feeds it: optional sign,
then base-10 digits with underscores permitted only between digits;
`none` models the `ValueError` raise.  (Surrounding whitespace never occurs
in the correlation tokens, so it is not modelled.) -/
def pyInt? (s : String) : Option Int :=
  match s.data with
  | [] => none
  | c :: rest =>
    if c = '-' then
      if pyDigitsOk rest then some (-(digitsVal rest : Int)) else none
    else if c = '+' then
      if pyDigitsOk rest then some (digitsVal rest) else none
    else if pyDigitsOk (c :: rest) then some (digitsVal (c :: rest)) else none

/-- Python `s.split(sep, 1)` on character lists, for nonempty `sep`:
`some (before, after)` at the first occurrence of `sep`, `none` when `sep`
does not occur (which is exactly the `sep in s` test of the code). -/
def splitOnceL (sep : List Char) : List Char → Option (List Char × List Char)
  | [] => none
  | c :: rest =>
    if sep.isPrefixOf (c :: rest) then some ([], (c :: rest).drop sep.length)
    else (splitOnceL sep rest).map (fun p => (c :: p.1, p.2))

/-- Python `s.split(sep, 1)` paired with the `sep in s` membership test. -/
def splitOnce (sep s : String) : Option (String × String) :=
  (splitOnceL sep.data s.data).map (fun p => (String.mk p.1, String.mk p.2))

/-- `"__" not in t`: the session token is free of the separator. -/
def noSep (t : String) : Bool := (splitOnce "__" t).isNone

/-- Composite-token encoding performed at fan-out time
(`main.py` line 138: the f-string building `session_id` plus `"__"` plus
the enumerate index). -/
def encodeToken (t : String) (i : Nat) : String := t ++ "__" ++ toString i

/-- Outcome of the geocoding-reply handler's token decoding. -/
inductive Decoded where
  | plain : Decoded
  | composite (base : String) (idx : Int) : Decoded
  | err : Decoded
deriving DecidableEq

/-- Token decoding performed by `handle_mapbox` (lines 149-152): the
`"__" in session_id` test, `split("__", 1)` and `int(idx_str)`;
`Decoded.err` models the `ValueError` raised by `int` on a malformed
index part (which aborts the handler before any state change). -/
def decodeToken (s : String) : Decoded :=
  match splitOnce "__" s with
  | none => .plain
  | some p =>
    match pyInt? p.2 with
    | some i => .composite p.1 i
    | none => .err

example : decodeToken "abc__3" = .composite "abc" 3 := by decide
example : decodeToken "abc" = .plain := by decide
example : decodeToken (encodeToken "a_" 0) = .err := by decide

/-! ## Message models (`src/backend/agents/models.py`)

Only the payload fields the coordinator reads are given structure;
`UserRequirements.dict()` and `PropertyListing.dict()`/`POI.dict()`
results are modelled directly as `PyDict`s, and floats as opaque `Int`
atoms (the coordinator performs no arithmetic on them). -/

structure ScopingRequest where
  user_message : String
  session_id : String
deriving DecidableEq

structure ScopingResponse where
  agent_message : String
  is_complete : Bool
  session_id : String
  requirements : Option PyDict := none
  is_general_question : Bool := false
  general_question : Option String := none

structure ResearchRequest where
  requirements : PyDict
  session_id : String

/-- One entry of `result_images`: per `models.py` a dict with exactly the
keys `index` and `image_url`, read by `img["index"]` / `img["image_url"]`
in the merge loop. -/
structure ImageEntry where
  index : Int
  image_url : Val

structure ResearchResponse where
  properties : List PyDict
  search_summary : String
  total_found : Int
  session_id : String
  raw_search_results : Option (List PyDict) := none
  top_result_image_url : Option String := none
  result_images : Option (List ImageEntry) := none

structure GeneralRequest where
  question : String
  session_id : String

structure GeneralResponse where
  answer : String
  session_id : String

structure MapboxRequest where
  address : String
  session_id : String

structure MapboxResponse where
  address : String
  latitude : Int
  longitude : Int
  session_id : String
  error : Option String := none
  image_url : Option String := none

structure LocalDiscoveryRequest where
  latitude : Int
  longitude : Int
  session_id : String
  listing_index : Int

structure LocalDiscoveryResponse where
  pois : List PyDict
  session_id : String
  listing_index : Int

structure ChatRequest where
  message : String
  session_id : String

/-- REST response: `status` plus a JSON `data` dict. -/
structure ChatResponse where
  status : String
  data : PyDict

/-! ## Session state store (the `sessions` dict of `main.py`) -/

/-- One entry of `sessions[base_session_id]["geocoded_results"]`
(a dict with keys index/latitude/longitude/address, lines 164-169). -/
structure GeoEntry where
  index : Int
  latitude : Int
  longitude : Int
  address : String

/-- One entry of `sessions[sid]["poi_results"]`
(a dict with keys listing_index/pois, lines 209-212). -/
structure PoiEntry where
  listing_index : Int
  pois : List PyDict

/-- The per-session record.  Each field is one key of the per-session
Python dict; a field whose key is absent holds the default value, which
is faithful because every read of a possibly-absent key in the code uses
`dict.get` with that same default (or only initialises it). -/
structure Session where
  scoping : Option ScopingResponse := none
  research : Option ResearchResponse := none
  geocoded_results : List GeoEntry := []
  geocoding_count : Nat := 0
  poi_results : List PoiEntry := []
  poi_count : Nat := 0
  mapbox : Option MapboxResponse := none
  general : Option GeneralResponse := none

/-- The process-wide session store, keyed by session token. -/
def Sessions : Type := String → Session

/-- The store at process start: every key reads as the empty record. -/
def initSessions : Sessions := fun _ => {}

/-- Write one session record (dict update at one key). -/
def setS (st : Sessions) (k : String) (v : Session) : Sessions :=
  fun q => if q = k then v else st q

/-- An invocation sent by the coordinator to a worker agent. -/
inductive Send where
  | toScoping (r : ScopingRequest) : Send
  | toResearch (r : ResearchRequest) : Send
  | toGeneral (r : GeneralRequest) : Send
  | toMapbox (r : MapboxRequest) : Send
  | toLocalDiscovery (r : LocalDiscoveryRequest) : Send

/-! ## Response-collector handlers (`main.py`) -/

/-- `handle_scoping` (lines 76-108): store the scoping reply, then route
to the general agent (general question with a truthy question text) or to
the research agent (complete requirements). -/
def handleScoping (st : Sessions) (msg : ScopingResponse) : Sessions × List Send :=
  let sess := st msg.session_id
  let st1 := setS st msg.session_id { sess with scoping := some msg }
  (st1,
    if msg.is_general_question ∧ truthyOptStr msg.general_question then
      [Send.toGeneral ⟨msg.general_question.getD "", msg.session_id⟩]
    else if msg.is_complete ∧ msg.requirements.isSome then
      [Send.toResearch ⟨msg.requirements.getD [], msg.session_id⟩]
    else [])

/-- Python truthiness of a dict value, as used by `if address:` on the
result of `result.get("title", "")`.  The coordinator only ever meets
string titles; any value is reduced to the string the request would carry. -/
def pyTitle (r : PyDict) : String :=
  match dictGet? r "title" with
  | some (Val.str s) => s
  | _ => ""

/-- Python `enumerate`. -/
def pyEnumFrom (n : Nat) : List α → List (Nat × α)
  | [] => []
  | c :: rest => (n, c) :: pyEnumFrom (n + 1) rest

/-- Python `enumerate(l)`. -/
def pyEnumerate (l : List α) : List (Nat × α) := pyEnumFrom 0 l

/-- `handle_research` (lines 110-142): store the research reply, reset the
fan-out accumulators, and geocode the first five candidates, skipping a
candidate whose `title` is missing or empty (`if address:`); each request
is tagged with the composite token for its index. -/
def handleResearch (st : Sessions) (msg : ResearchResponse) : Sessions × List Send :=
  let sess := st msg.session_id
  let sess1 := { sess with
    research := some msg
    geocoded_results := []
    geocoding_count := 0
    poi_results := []
    poi_count := 0 }
  let st1 := setS st msg.session_id sess1
  (st1,
    match msg.raw_search_results with
    | some raws =>
      if raws.length > 0 then
        (pyEnumerate (raws.take 5)).filterMap (fun p =>
          let address := pyTitle p.2
          if address ≠ "" then
            some (Send.toMapbox ⟨address, encodeToken msg.session_id p.1⟩)
          else none)
      else []
    | none => [])

/-- `handle_mapbox` (lines 144-197): decode the composite token; on a
successful geocoding reply append the coordinate record and issue the POI
fan-out, on an error reply only log; either way increment
`geocoding_count`.  A plain token takes the legacy single-result branch;
a malformed index part raises inside `int` and aborts the handler before
any state change. -/
def handleMapbox (st : Sessions) (msg : MapboxResponse) : Sessions × List Send :=
  match decodeToken msg.session_id with
  | .composite base idx =>
    let sess := st base
    if truthyOptStr msg.error = false then
      let sess1 := { sess with
        geocoded_results := sess.geocoded_results ++
          [⟨idx, msg.latitude, msg.longitude, msg.address⟩]
        geocoding_count := sess.geocoding_count + 1 }
      (setS st base sess1,
       [Send.toLocalDiscovery ⟨msg.latitude, msg.longitude, base, idx⟩])
    else
      (setS st base { sess with geocoding_count := sess.geocoding_count + 1 }, [])
  | .err => (st, [])
  | .plain =>
    let sess := st msg.session_id
    (setS st msg.session_id { sess with mapbox := some msg }, [])

/-- `handle_local_discovery` (lines 199-216): append the POI record for
the listing index and increment `poi_count` unconditionally. -/
def handleLocalDiscovery (st : Sessions) (msg : LocalDiscoveryResponse) : Sessions :=
  let sess := st msg.session_id
  setS st msg.session_id { sess with
    poi_results := sess.poi_results ++ [⟨msg.listing_index, msg.pois⟩]
    poi_count := sess.poi_count + 1 }

/-- `handle_general` (lines 218-225): store the free-form answer. -/
def handleGeneral (st : Sessions) (msg : GeneralResponse) : Sessions :=
  let sess := st msg.session_id
  setS st msg.session_id { sess with general := some msg }


/-! ## Wait/merge orchestrator (`handle_chat`, lines 226-412)

The bounded poll loops are abstracted by a `Scenario`: the worker replies
that arrive within the stage budgets (`none`/`[]` = the wait times out).
Arriving replies are delivered by the handler functions above, in the
causal order scoping, general/research, geocoding, POI; after delivery
the response logic reads the store exactly as the code does. -/

/-- The replies that arrive within the bounded waits of one request. -/
structure Scenario where
  scoping : Option ScopingResponse := none
  general : Option GeneralResponse := none
  research : Option ResearchResponse := none
  mapbox : List MapboxResponse := []
  poi : List LocalDiscoveryResponse := []

/-- `results_count = min(len(research_msg.raw_search_results), 5)`
(line 296): the completion count the orchestrator waits for, computed
from the candidate list alone. -/
def resultsCount (research_msg : ResearchResponse) : Nat :=
  min (research_msg.raw_search_results.getD []).length 5

/-- The merge body for one candidate (lines 329-356): copy the candidate,
add coordinates when a geocoded entry with this index exists, add the
image when a `result_images` entry with this index exists, and set
`"pois"` to the recorded list or `[]`. -/
def enhanceResult (geocoded : List GeoEntry) (images : List ImageEntry)
    (pois : List PoiEntry) (idx : Nat) (result : PyDict) : PyDict :=
  let e0 := result
  let e1 :=
    match geocoded.find? (fun g => g.index == (idx : Int)) with
    | some g =>
      dictSet (dictSet (dictSet e0 "latitude" (Val.num g.latitude))
        "longitude" (Val.num g.longitude)) "address" (Val.str g.address)
    | none => e0
  let e2 :=
    match images.find? (fun im => im.index == (idx : Int)) with
    | some im => dictSet e1 "image_url" im.image_url
    | none => e1
  match pois.find? (fun p => p.listing_index == (idx : Int)) with
  | some p => dictSet e2 "pois" (Val.list (p.pois.map Val.dict))
  | none => dictSet e2 "pois" (Val.list [])

/-- The merge loop (lines 323-356) over the first five candidates. -/
def mergeResults (research_msg : ResearchResponse) (sess : Session)
    (raws : List PyDict) : List PyDict :=
  let geocoded := sess.geocoded_results
  let images := research_msg.result_images.getD []
  let pois := sess.poi_results
  (pyEnumerate (raws.take 5)).map (fun p => enhanceResult geocoded images pois p.1 p.2)

/-- `top_result_coordinates` (lines 365-372): built from the first merged
result when it carries a latitude. -/
def topResultCoords (enhanced : List PyDict) : Val :=
  match enhanced with
  | [] => Val.null
  | e0 :: _ =>
    if (dictGet? e0 "latitude").isSome then
      Val.dict
        [("latitude", (dictGet? e0 "latitude").getD Val.null),
         ("longitude", (dictGet? e0 "longitude").getD Val.null),
         ("address", (dictGet? e0 "address").getD ((dictGet? e0 "title").getD (Val.str ""))),
         ("image_url", (dictGet? e0 "image_url").getD Val.null)]
    else Val.null

/-- The success payload of the property-search path (lines 374-383). -/
def searchSuccessData (scoping_msg : ScopingResponse)
    (research_msg : ResearchResponse) (enhanced : List PyDict) : PyDict :=
  [("requirements", Val.dict (scoping_msg.requirements.getD [])),
   ("properties", Val.list (research_msg.properties.map Val.dict)),
   ("search_summary", Val.str research_msg.search_summary),
   ("total_found", Val.num research_msg.total_found),
   ("top_result_coordinates", topResultCoords enhanced),
   ("raw_search_results", Val.list (enhanced.map Val.dict))]

/-- The tail of `handle_chat` after the general-question branch
(lines 283-404): the property-search path, the research-timeout error and
the final scoping-conversation response. -/
def respondSearch (sess : Session) (scoping_msg : ScopingResponse) : ChatResponse :=
  if scoping_msg.is_complete ∧ scoping_msg.requirements.isSome then
    match sess.research with
    | some research_msg =>
      match research_msg.raw_search_results with
      | some raws =>
        ⟨"success", searchSuccessData scoping_msg research_msg
          (mergeResults research_msg sess raws)⟩
      | none =>
        -- `research_msg.raw_search_results[:5]` raises a TypeError on None,
        -- which the enclosing except-block turns into an error response.
        ⟨"error", [("message", Val.str "TypeError: NoneType is not subscriptable")]⟩
    | none =>
      ⟨"error", [("message", Val.str "Research agent did not respond in time")]⟩
  else
    ⟨"success",
      [("requirements",
        match scoping_msg.requirements with
        | some r => Val.dict r
        | none => Val.dict []),
       ("properties", Val.list []),
       ("search_summary", Val.str scoping_msg.agent_message),
       ("total_found", Val.num 0)]⟩

/-- The response logic of `handle_chat` once the scoping reply is in the
store (lines 260-404): the general-question branch falls through to the
search path when no free-form answer is stored. -/
def chatRespond (sess : Session) (scoping_msg : ScopingResponse) : ChatResponse :=
  if scoping_msg.is_general_question then
    match sess.general with
    | some g =>
      ⟨"success",
        [("requirements", Val.dict []),
         ("properties", Val.list []),
         ("search_summary", Val.str g.answer),
         ("total_found", Val.num 0)]⟩
    | none => respondSearch sess scoping_msg
  else respondSearch sess scoping_msg

/-- The timeout error of the first wait stage (lines 255-258). -/
def scopingTimeout : ChatResponse :=
  ⟨"error", [("message", Val.str "Timeout waiting for scoping agent")]⟩

/-- Deliver the geocoding replies of a scenario in arrival order,
collecting the POI fan-out requests they trigger. -/
def deliverMapbox (st : Sessions) (ms : List MapboxResponse) : Sessions × List Send :=
  ms.foldl (fun acc m =>
    let q := handleMapbox acc.1 m
    (q.1, acc.2 ++ q.2)) (st, [])

/-- `handle_chat` (lines 226-412) under a scenario of arriving replies:
clear the `scoping`/`research` keys, send the message to the scoping
agent, and either time out waiting for classification or deliver the
arriving replies through the collector handlers and produce the response
from the resulting store.  Returns (final store, sends, response). -/
def handleChat (st : Sessions) (req : ChatRequest) (sc : Scenario) :
    Sessions × List Send × ChatResponse :=
  let sess0 := st req.session_id
  let st0 := setS st req.session_id { sess0 with scoping := none, research := none }
  let scopingSend := Send.toScoping ⟨req.message, req.session_id⟩
  match sc.scoping with
  | none => (st0, [scopingSend], scopingTimeout)
  | some arr =>
    let p1 := handleScoping st0 arr
    let st1 := p1.1
    let st2 := match sc.general with
      | some g => handleGeneral st1 g
      | none => st1
    let p2 := match sc.research with
      | some r => handleResearch st2 r
      | none => (st2, [])
    let p3 := deliverMapbox p2.1 sc.mapbox
    let st4 := sc.poi.foldl handleLocalDiscovery p3.1
    let sends := scopingSend :: (p1.2 ++ p2.2 ++ p3.2)
    match (st4 req.session_id).scoping with
    | none => (st4, sends, scopingTimeout)
    | some scoping_msg => (st4, sends, chatRespond (st4 req.session_id) scoping_msg)

/-! ## Basic lemmas about the store, dicts and enumeration -/

theorem setS_eval_self (st : Sessions) (k : String) (v : Session) :
    setS st k v k = v := by
  simp [setS]

theorem setS_eval_ne (st : Sessions) (k q : String) (v : Session) (h : q ≠ k) :
    setS st k v q = st q := by
  simp [setS, h]

theorem dictGet?_dictSet_self (d : PyDict) (k : String) (v : Val) :
    dictGet? (dictSet d k v) k = some v := by
  induction d with
  | nil => simp [dictSet, dictGet?, List.find?]
  | cons p rest ih =>
    by_cases h : p.1 = k
    · simp [dictSet, dictGet?, List.find?, h]
    · simp only [dictSet, if_neg h]
      simpa [dictGet?, List.find?, h] using ih

theorem dictGet?_dictSet_ne (d : PyDict) (k q : String) (v : Val) (h : q ≠ k) :
    dictGet? (dictSet d k v) q = dictGet? d q := by
  have hkq : k ≠ q := Ne.symm h
  induction d with
  | nil => simp [dictSet, dictGet?, List.find?, hkq]
  | cons p rest ih =>
    by_cases hp : p.1 = k
    · subst hp
      simp [dictSet, dictGet?, List.find?, hkq]
    · simp only [dictSet, if_neg hp]
      by_cases hq : p.1 = q
      · simp [dictGet?, List.find?, hq]
      · simpa [dictGet?, List.find?, hq] using ih

theorem find?_append_of_found (l₁ l₂ : List α) (p : α → Bool) (e : α)
    (h : l₁.find? p = some e) : (l₁ ++ l₂).find? p = some e := by
  induction l₁ with
  | nil => simp [List.find?] at h
  | cons a rest ih =>
    by_cases hp : p a
    · simp_all [List.find?]
    · simp only [List.find?, hp] at h
      simpa [List.find?, hp] using ih h

theorem pyEnumFrom_length (n : Nat) (l : List α) :
    (pyEnumFrom n l).length = l.length := by
  induction l generalizing n with
  | nil => rfl
  | cons a rest ih => simp [pyEnumFrom, ih]

theorem pyEnumFrom_mem (n : Nat) (l : List α) (q : Nat × α)
    (h : q ∈ pyEnumFrom n l) :
    n ≤ q.1 ∧ q.1 - n < l.length ∧ l.getD (q.1 - n) q.2 = q.2 := by
  induction l generalizing n with
  | nil => simp [pyEnumFrom] at h
  | cons a rest ih =>
    simp only [pyEnumFrom, List.mem_cons] at h
    rcases h with h | h
    · subst h
      simp
    · obtain ⟨h1, h2, h3⟩ := ih (n + 1) h
      refine ⟨by omega, by simp; omega, ?_⟩
      have hq : q.1 - n = (q.1 - (n + 1)) + 1 := by omega
      rw [hq]
      simpa using h3

theorem pyEnumFrom_getD (n : Nat) (l : List α) (i : Nat) (d : α)
    (h : i < l.length) :
    (pyEnumFrom n l).getD i (0, d) = (n + i, l.getD i d) := by
  induction l generalizing n i with
  | nil => simp at h
  | cons a rest ih =>
    cases i with
    | zero => simp [pyEnumFrom]
    | succ j =>
      have hj : j < rest.length := by simpa using h
      simp only [pyEnumFrom, List.getD_cons_succ]
      rw [ih (n + 1) j hj]
      simp only [Prod.mk.injEq]
      exact ⟨by omega, trivial⟩

/-! ## The correlation-token round trip (claim C1) -/

theorem strMk_data (s : String) : String.mk s.data = s := rfl

/-- Unfolding equation for `splitOnceL` on a nonempty list. -/
theorem splitOnceL_cons_eq (sep : List Char) (c : Char) (l : List Char) :
    splitOnceL sep (c :: l) =
      if sep.isPrefixOf (c :: l) then some ([], (c :: l).drop sep.length)
      else (splitOnceL sep l).map (fun p => (c :: p.1, p.2)) := rfl

/-- When `l` is free of `"__"` and does not end in `'_'`, the first
occurrence of `"__"` in `l ++ "__" ++ d` is exactly at the boundary. -/
theorem splitOnceL_sep_append (l d : List Char)
    (h1 : splitOnceL ['_', '_'] l = none)
    (h2 : l.getLast? ≠ some '_') :
    splitOnceL ['_', '_'] (l ++ '_' :: '_' :: d) = some (l, d) := by
  induction l with
  | nil =>
    show splitOnceL ['_', '_'] ('_' :: '_' :: d) = some ([], d)
    rw [splitOnceL_cons_eq, if_pos (by simp [List.isPrefixOf])]
    rfl
  | cons c rest ih =>
    rw [splitOnceL_cons_eq] at h1
    by_cases hpre : List.isPrefixOf ['_', '_'] (c :: rest) = true
    · rw [if_pos hpre] at h1
      exact absurd h1 (by simp)
    · rw [if_neg hpre] at h1
      have hrest : splitOnceL ['_', '_'] rest = none := by
        cases hr : splitOnceL ['_', '_'] rest with
        | none => rfl
        | some p => rw [hr] at h1; simp at h1
      have hpre2 : List.isPrefixOf ['_', '_'] (c :: (rest ++ '_' :: '_' :: d)) = false := by
        by_cases hc : c = '_'
        · subst hc
          cases rest with
          | nil => exact absurd (by simp) h2
          | cons b rest2 =>
            have hb : b ≠ '_' := by
              intro hbq
              subst hbq
              exact hpre (by simp [List.isPrefixOf])
            have hbf : ('_' == b) = false := beq_eq_false_iff_ne.mpr (Ne.symm hb)
            simp [List.isPrefixOf, hbf]
        · have hcf : ('_' == c) = false := beq_eq_false_iff_ne.mpr (Ne.symm hc)
          simp [List.isPrefixOf, hcf]
      have h2r : rest.getLast? ≠ some '_' := by
        cases rest with
        | nil => simp
        | cons b rest2 => rwa [List.getLast?_cons_cons] at h2
      show splitOnceL ['_', '_'] (c :: (rest ++ '_' :: '_' :: d)) = some (c :: rest, d)
      rw [splitOnceL_cons_eq, if_neg (by simp [hpre2]), ih hrest h2r]
      rfl

/-- String-level form: splitting the composite token recovers the session
token and the index part, for tokens free of the separator that do not
end in an underscore. -/
theorem splitOnce_token_append (t u : String)
    (h1 : noSep t = true)
    (h2 : t.data.getLast? ≠ some '_') :
    splitOnce "__" (t ++ "__" ++ u) = some (t, u) := by
  have hin : splitOnceL ['_', '_'] t.data = none := by
    unfold noSep splitOnce at h1
    cases hq : splitOnceL ['_', '_'] t.data with
    | none => rfl
    | some p =>
      have : ("__" : String).data = ['_', '_'] := rfl
      rw [this, hq] at h1
      simp at h1
  have hdata : (t ++ "__" ++ u).data = t.data ++ '_' :: '_' :: u.data := by
    simp [String.data_append]
  unfold splitOnce
  have : ("__" : String).data = ['_', '_'] := rfl
  rw [this, hdata, splitOnceL_sep_append t.data u.data hin h2]
  simp [strMk_data]

/-- The decode side of `handle_mapbox` inverts the encode side of
`handle_research` for separator-free tokens not ending in `'_'` and batch
indices below five. -/
theorem decode_encode_valid (t : String) (i : Nat)
    (h1 : noSep t = true)
    (h2 : t.data.getLast? ≠ some '_')
    (hi : i < 5) :
    decodeToken (encodeToken t i) = Decoded.composite t i := by
  have hsplit : splitOnce "__" (t ++ "__" ++ toString i) = some (t, toString i) :=
    splitOnce_token_append t (toString i) h1 h2
  unfold decodeToken encodeToken
  rw [hsplit]
  interval_cases i <;> rfl

/-! ## Claim C1 -/

/-- Claim C1, counterexample: the session token `"a_"` is free of the
separator `"__"`, yet the composite token `encode("a_", 0) = "a___0"`
splits at the first `"__"` occurrence into `("a", "_0")` and `int("_0")`
raises, so decoding does not return `("a_", 0, composite)`. -/
theorem c1_encode_decode_counterexample :
    noSep "a_" = true ∧ 0 < 5 ∧
      decodeToken (encodeToken "a_" 0) ≠ Decoded.composite "a_" 0 :=
  ⟨by decide, by decide, by decide⟩

/-- Claim C1 (amended): for every session token that neither contains the
separator `"__"` nor ends in `'_'`, and every index `i` in `[0,5)`,
decoding the composite token produced by encoding `(t, i)` yields back
exactly `(t, i)` as a composite token. -/
theorem c1_encode_decode_roundtrip (t : String) (i : Nat)
    (h1 : noSep t = true)
    (h2 : t.data.getLast? ≠ some '_')
    (hi : i < 5) :
    decodeToken (encodeToken t i) = Decoded.composite t i :=
  decode_encode_valid t i h1 h2 hi

/-- Witness for C1 at a concrete token and index. -/
theorem c1_encode_decode_roundtrip_witness :
    decodeToken (encodeToken "session42" 3) = Decoded.composite "session42" 3 :=
  c1_encode_decode_roundtrip "session42" 3 (by decide) (by decide) (by decide)

/-! ## Single-step effects of the geocoding-reply handler -/

/-- On a successful composite geocoding reply the handler appends the
coordinate record, increments the counter, fires exactly one POI
invocation, and touches nothing else. -/
theorem handleMapbox_success_step (st : Sessions) (m : MapboxResponse)
    (base : String) (i : Int)
    (hdec : decodeToken m.session_id = Decoded.composite base i)
    (herr : truthyOptStr m.error = false) :
    (handleMapbox st m).1 base =
      { st base with
        geocoded_results := (st base).geocoded_results ++
          [⟨i, m.latitude, m.longitude, m.address⟩]
        geocoding_count := (st base).geocoding_count + 1 }
    ∧ (handleMapbox st m).2 = [Send.toLocalDiscovery ⟨m.latitude, m.longitude, base, i⟩]
    ∧ ∀ q, q ≠ base → (handleMapbox st m).1 q = st q := by
  simp only [handleMapbox, hdec]
  rw [if_pos herr]
  refine ⟨setS_eval_self _ _ _, rfl, fun q hq => setS_eval_ne _ _ _ _ hq⟩

/-- On an error composite geocoding reply the handler only increments the
counter: no record is appended, no POI invocation is fired, and nothing
else changes. -/
theorem handleMapbox_error_step (st : Sessions) (m : MapboxResponse)
    (base : String) (i : Int)
    (hdec : decodeToken m.session_id = Decoded.composite base i)
    (herr : truthyOptStr m.error = true) :
    (handleMapbox st m).1 base =
      { st base with geocoding_count := (st base).geocoding_count + 1 }
    ∧ (handleMapbox st m).2 = []
    ∧ ∀ q, q ≠ base → (handleMapbox st m).1 q = st q := by
  have hcond : ¬ (truthyOptStr m.error = false) := by simp [herr]
  simp only [handleMapbox, hdec]
  rw [if_neg hcond]
  refine ⟨setS_eval_self _ _ _, rfl, fun q hq => setS_eval_ne _ _ _ _ hq⟩

/-! ## Claim C2 -/

/-- Claim C2, counterexample: delivering the same successful geocoding
reply for index 0 twice increments `geocoding_count` to 2 and stores two
records, so recording is not idempotent per distinct index. -/
theorem c2_duplicate_reply_counterexample :
    (((handleMapbox (handleMapbox initSessions
        ⟨"A", 1, 2, "s__0", none, none⟩).1
        ⟨"A", 1, 2, "s__0", none, none⟩).1 "s").geocoding_count = 2)
    ∧ (((handleMapbox initSessions
        ⟨"A", 1, 2, "s__0", none, none⟩).1 "s").geocoding_count = 1)
    ∧ (((handleMapbox (handleMapbox initSessions
        ⟨"A", 1, 2, "s__0", none, none⟩).1
        ⟨"A", 1, 2, "s__0", none, none⟩).1 "s").geocoded_results.length = 2) :=
  ⟨rfl, rfl, rfl⟩

/-- Claim C2 (amended): delivering a second reply for an already-recorded
(category, index) pair appends a duplicate record and increments that
category's counter a second time; the first recorded value, however, is
not overwritten — it stays in place and remains the value the merge's
first-match lookup returns.  Both fan-out categories behave this way. -/
theorem c2_duplicate_reply_recounted (st : Sessions) (m : MapboxResponse)
    (p : LocalDiscoveryResponse) (base : String) (i : Int)
    (e : GeoEntry) (pe : PoiEntry)
    (hdec : decodeToken m.session_id = Decoded.composite base i)
    (herr : truthyOptStr m.error = false)
    (hfound : (st base).geocoded_results.find? (fun g => g.index == i) = some e)
    (hfoundp : (st p.session_id).poi_results.find?
      (fun x => x.listing_index == p.listing_index) = some pe) :
    ((handleMapbox st m).1 base).geocoding_count = (st base).geocoding_count + 1
    ∧ ((handleMapbox st m).1 base).geocoded_results =
        (st base).geocoded_results ++ [⟨i, m.latitude, m.longitude, m.address⟩]
    ∧ ((handleMapbox st m).1 base).geocoded_results.find? (fun g => g.index == i) = some e
    ∧ ((handleLocalDiscovery st p) p.session_id).poi_count = (st p.session_id).poi_count + 1
    ∧ ((handleLocalDiscovery st p) p.session_id).poi_results =
        (st p.session_id).poi_results ++ [⟨p.listing_index, p.pois⟩]
    ∧ ((handleLocalDiscovery st p) p.session_id).poi_results.find?
        (fun x => x.listing_index == p.listing_index) = some pe := by
  obtain ⟨hs, _, _⟩ := handleMapbox_success_step st m base i hdec herr
  have hld : (handleLocalDiscovery st p) p.session_id =
      { st p.session_id with
        poi_results := (st p.session_id).poi_results ++ [⟨p.listing_index, p.pois⟩]
        poi_count := (st p.session_id).poi_count + 1 } := by
    unfold handleLocalDiscovery
    exact setS_eval_self _ _ _
  rw [hs, hld]
  exact ⟨rfl, rfl, find?_append_of_found _ _ _ _ hfound, rfl, rfl,
    find?_append_of_found _ _ _ _ hfoundp⟩

/-- Witness for C2 at concrete inputs: a second identical geocoding reply
for index 0 and a second identical POI reply for listing 0. -/
theorem c2_duplicate_reply_recounted_witness :
    (((handleMapbox (handleLocalDiscovery
        (handleMapbox initSessions ⟨"A", 1, 2, "s__0", none, none⟩).1 ⟨[], "s", 0⟩)
        ⟨"A", 1, 2, "s__0", none, none⟩).1 "s").geocoded_results.find?
          (fun g => g.index == (0 : Int)) = some ⟨0, 1, 2, "A"⟩) :=
  (c2_duplicate_reply_recounted
    (handleLocalDiscovery
      (handleMapbox initSessions ⟨"A", 1, 2, "s__0", none, none⟩).1 ⟨[], "s", 0⟩)
    ⟨"A", 1, 2, "s__0", none, none⟩
    ⟨[], "s", 0⟩ "s" 0 ⟨0, 1, 2, "A"⟩ ⟨0, []⟩
    (by decide) (by decide) rfl rfl).2.2.1

/-! ## Claim C3 -/

/-- Claim C3, counterexample: an error geocoding reply for index 2 leaves
`geocoded_results` empty yet still increments the geocoding completion
counter from 0 to 1, so the errored index is counted as completed. -/
theorem c3_error_reply_counterexample :
    (((handleMapbox initSessions
        ⟨"X", 0, 0, "s__2", some "boom", none⟩).1 "s").geocoding_count = 1)
    ∧ ((initSessions "s").geocoding_count = 0)
    ∧ (((handleMapbox initSessions
        ⟨"X", 0, 0, "s__2", some "boom", none⟩).1 "s").geocoded_results = []) :=
  ⟨rfl, rfl, rfl⟩

/-- Claim C3 (amended): on a geocoding reply carrying an error for index
`i`, no coordinate is recorded, no point-of-interest invocation is
issued, and no other session data changes — but the geocoding completion
counter is still incremented by the reply; replies for other indices of
the same session and all other sessions are unaffected. -/
theorem c3_error_reply_not_recorded (st : Sessions) (m : MapboxResponse)
    (base : String) (i : Int)
    (hdec : decodeToken m.session_id = Decoded.composite base i)
    (herr : truthyOptStr m.error = true) :
    (handleMapbox st m).2 = []
    ∧ ((handleMapbox st m).1 base).geocoded_results = (st base).geocoded_results
    ∧ ((handleMapbox st m).1 base).geocoding_count = (st base).geocoding_count + 1
    ∧ ((handleMapbox st m).1 base).poi_results = (st base).poi_results
    ∧ ((handleMapbox st m).1 base).poi_count = (st base).poi_count
    ∧ ((handleMapbox st m).1 base).research = (st base).research
    ∧ ((handleMapbox st m).1 base).scoping = (st base).scoping
    ∧ ((handleMapbox st m).1 base).general = (st base).general
    ∧ ∀ q, q ≠ base → (handleMapbox st m).1 q = st q := by
  obtain ⟨hs, hsend, hrest⟩ := handleMapbox_error_step st m base i hdec herr
  rw [hs]
  exact ⟨hsend, rfl, rfl, rfl, rfl, rfl, rfl, rfl, hrest⟩

/-- Witness for C3 at a concrete error reply for index 2. -/
theorem c3_error_reply_not_recorded_witness :
    (handleMapbox initSessions ⟨"X", 0, 0, "s__2", some "boom", none⟩).2 = [] :=
  (c3_error_reply_not_recorded initSessions
    ⟨"X", 0, 0, "s__2", some "boom", none⟩ "s" 2 (by decide) (by decide)).1

/-! ## Characterising the research fan-out -/

theorem get?_take_of_lt (l : List α) (n i : Nat) (h : i < n) :
    (l.take n).get? i = l.get? i := by
  induction l generalizing n i with
  | nil => simp
  | cons a rest ih =>
    cases n with
    | zero => omega
    | succ n2 =>
      cases i with
      | zero => simp
      | succ j => simpa using ih n2 j (by omega)

theorem get?_lt_length (l : List α) (i : Nat) (x : α) (h : l.get? i = some x) :
    i < l.length := by
  induction l generalizing i with
  | nil => simp [List.get?] at h
  | cons a rest ih =>
    cases i with
    | zero => simp
    | succ j =>
      simp only [List.get?] at h
      have := ih j h
      simp
      omega

theorem getD_of_get? (l : List α) (i : Nat) (x d : α) (h : l.get? i = some x) :
    l.getD i d = x := by
  induction l generalizing i with
  | nil => simp [List.get?] at h
  | cons a rest ih =>
    cases i with
    | zero => simp only [List.get?] at h; simpa using h
    | succ j =>
      simp only [List.get?] at h
      simpa using ih j h

theorem get?_of_lt_length (l : List α) (i : Nat) (d : α) (h : i < l.length) :
    l.get? i = some (l.getD i d) := by
  induction l generalizing i with
  | nil => simp at h
  | cons a rest ih =>
    cases i with
    | zero => simp
    | succ j => simpa using ih j (by simpa using h)

theorem pyEnumFrom_mem_iff (n : Nat) (l : List α) (q : Nat × α) :
    q ∈ pyEnumFrom n l ↔ n ≤ q.1 ∧ l.get? (q.1 - n) = some q.2 := by
  induction l generalizing n with
  | nil => simp [pyEnumFrom]
  | cons a rest ih =>
    simp only [pyEnumFrom, List.mem_cons, ih (n + 1)]
    constructor
    · rintro (rfl | ⟨h1, h2⟩)
      · simp
      · refine ⟨by omega, ?_⟩
        have hq : q.1 - n = (q.1 - (n + 1)) + 1 := by omega
        rw [hq]
        simpa using h2
    · rintro ⟨h1, h2⟩
      by_cases hqn : q.1 = n
      · left
        obtain ⟨q1, q2⟩ := q
        simp only at hqn
        subst hqn
        simp only [Nat.sub_self, List.get?] at h2
        injection h2 with h3
        simp [h3]
      · right
        refine ⟨by omega, ?_⟩
        have hq : q.1 - n = (q.1 - (n + 1)) + 1 := by omega
        rw [hq] at h2
        simpa using h2

/-- The store written by `handle_research` at the reply's session key. -/
theorem handleResearch_state (st : Sessions) (msg : ResearchResponse) :
    (handleResearch st msg).1 msg.session_id =
      { st msg.session_id with
        research := some msg
        geocoded_results := []
        geocoding_count := 0
        poi_results := []
        poi_count := 0 } := by
  unfold handleResearch
  cases msg.raw_search_results with
  | none => exact setS_eval_self _ _ _
  | some raws =>
    by_cases h : raws.length > 0
    · simp only [if_pos h]
      exact setS_eval_self _ _ _
    · simp only [if_neg h]
      exact setS_eval_self _ _ _

/-- Membership in the geocoding fan-out issued by `handle_research`: an
invocation exists exactly for the indices below `min(5, n)` whose
candidate has a non-empty title, and it carries that title and the
composite token of the index. -/
theorem mem_research_sends (st : Sessions) (msg : ResearchResponse)
    (cands : List PyDict) (hraw : msg.raw_search_results = some cands) (s : Send) :
    s ∈ (handleResearch st msg).2 ↔
      ∃ i, i < min cands.length 5 ∧ pyTitle (cands.getD i []) ≠ "" ∧
        s = Send.toMapbox ⟨pyTitle (cands.getD i []), encodeToken msg.session_id i⟩ := by
  simp only [handleResearch, hraw]
  by_cases hne : cands.length > 0
  · rw [if_pos hne]
    constructor
    · intro hs
      rw [List.mem_filterMap] at hs
      obtain ⟨p, hp, hf⟩ := hs
      rw [pyEnumerate, pyEnumFrom_mem_iff] at hp
      obtain ⟨-, hp2⟩ := hp
      simp only [Nat.sub_zero] at hp2
      have hlt5 : p.1 < 5 := by
        have := get?_lt_length _ _ _ hp2
        simp only [List.length_take] at this
        omega
      have hpc : cands.get? p.1 = some p.2 := by
        rwa [get?_take_of_lt _ _ _ hlt5] at hp2
      have hltc : p.1 < cands.length := get?_lt_length _ _ _ hpc
      have hgd : cands.getD p.1 [] = p.2 := getD_of_get? _ _ _ _ hpc
      by_cases ht : pyTitle p.2 ≠ ""
      · rw [if_pos ht] at hf
        refine ⟨p.1, by omega, by rwa [hgd], ?_⟩
        injection hf with hf2
        rw [hgd]
        exact hf2.symm
      · rw [if_neg ht] at hf
        exact absurd hf (by simp)
    · rintro ⟨i, hi, ht, rfl⟩
      rw [List.mem_filterMap]
      have hic : i < cands.length := by omega
      have hi5 : i < 5 := by omega
      refine ⟨(i, cands.getD i []), ?_, ?_⟩
      · rw [pyEnumerate, pyEnumFrom_mem_iff]
        refine ⟨by omega, ?_⟩
        simp only [Nat.sub_zero]
        rw [get?_take_of_lt _ _ _ hi5]
        exact get?_of_lt_length _ _ _ hic
      · simp only
        rw [if_pos ht]
  · rw [if_neg hne]
    have hc0 : cands.length = 0 := by omega
    simp [hc0]

/-! ## Claim C5 -/

/-- A titled raw search candidate. -/
def titledCand (t : String) : PyDict := [("title", Val.str t)]

/-- Claim C5, counterexample: a property-search reply with 8 candidates
whose first candidate has no `title` issues only 4 geocoding invocations
(indices 1-4), not exactly 5. -/
theorem c5_fanout_counterexample :
    ((some [([] : PyDict), titledCand "a1", titledCand "a2", titledCand "a3",
        titledCand "a4", titledCand "a5", titledCand "a6", titledCand "a7"]).getD []).length = 8
    ∧ ¬ ((handleResearch initSessions
        { properties := [], search_summary := "", total_found := 0, session_id := "s",
          raw_search_results := some [([] : PyDict), titledCand "a1", titledCand "a2",
            titledCand "a3", titledCand "a4", titledCand "a5", titledCand "a6",
            titledCand "a7"] }).2.length = 5) := by
  constructor
  · rfl
  · intro hq
    have h4 : (handleResearch initSessions
        { properties := [], search_summary := "", total_found := 0, session_id := "s",
          raw_search_results := some [([] : PyDict), titledCand "a1", titledCand "a2",
            titledCand "a3", titledCand "a4", titledCand "a5", titledCand "a6",
            titledCand "a7"] }).2.length = 4 := rfl
    rw [h4] at hq
    exact absurd hq (by decide)

/-- Claim C5 (amended): for a property-search reply with more than five
candidates, each of whose first five candidates carries a non-empty
`title`, exactly five geocoding invocations are issued, tagged with the
composite tokens of indices 0 through 4 and carrying those titles;
candidates at indices 5 and beyond receive no invocation. -/
theorem c5_fanout_capped_at_five (st : Sessions) (msg : ResearchResponse)
    (cands : List PyDict)
    (hraw : msg.raw_search_results = some cands)
    (hlen : cands.length > 5)
    (htitles : ∀ j, j < 5 → pyTitle (cands.getD j []) ≠ "") :
    (handleResearch st msg).2 =
      (List.range 5).map (fun i =>
        Send.toMapbox ⟨pyTitle (cands.getD i []), encodeToken msg.session_id i⟩) := by
  rcases cands with _ | ⟨c0, _ | ⟨c1, _ | ⟨c2, _ | ⟨c3, _ | ⟨c4, rest⟩⟩⟩⟩⟩
  · simp at hlen
  · simp at hlen
  · simp at hlen
  · simp at hlen
  · simp at hlen
  · have h0 : pyTitle c0 ≠ "" := by simpa using htitles 0 (by omega)
    have h1 : pyTitle c1 ≠ "" := by simpa using htitles 1 (by omega)
    have h2 : pyTitle c2 ≠ "" := by simpa using htitles 2 (by omega)
    have h3 : pyTitle c3 ≠ "" := by simpa using htitles 3 (by omega)
    have h4 : pyTitle c4 ≠ "" := by simpa using htitles 4 (by omega)
    simp only [handleResearch, hraw]
    rw [if_pos (by simp)]
    simp [pyEnumerate, pyEnumFrom, List.take, List.filterMap, h0, h1, h2, h3, h4,
      List.range_succ]

/-- Witness for C5: six candidates titled `b0..b5` produce exactly the
five invocations for indices 0-4. -/
theorem c5_fanout_capped_at_five_witness :
    (handleResearch initSessions
      { properties := [], search_summary := "", total_found := 0, session_id := "s",
        raw_search_results := some [titledCand "b0", titledCand "b1", titledCand "b2",
          titledCand "b3", titledCand "b4", titledCand "b5"] }).2 =
      (List.range 5).map (fun i =>
        Send.toMapbox ⟨pyTitle (([titledCand "b0", titledCand "b1", titledCand "b2",
          titledCand "b3", titledCand "b4", titledCand "b5"]).getD i []),
          encodeToken "s" i⟩) :=
  c5_fanout_capped_at_five initSessions
    { properties := [], search_summary := "", total_found := 0, session_id := "s",
      raw_search_results := some [titledCand "b0", titledCand "b1", titledCand "b2",
        titledCand "b3", titledCand "b4", titledCand "b5"] }
    [titledCand "b0", titledCand "b1", titledCand "b2",
      titledCand "b3", titledCand "b4", titledCand "b5"]
    rfl (by decide) (by decide)

/-! ## Claim C9 -/

/-- Folding geocoding replies that all decode to composite tokens of one
session: every recorded coordinate entry satisfies any property that held
for the starting entries and holds of each reply's would-be entry. -/
theorem foldl_mapbox_geo_inv (replies : List MapboxResponse) (sid : String)
    (P : GeoEntry → Prop) :
    ∀ s : Sessions,
      (∀ g ∈ (s sid).geocoded_results, P g) →
      (∀ r ∈ replies, ∃ i : Int, decodeToken r.session_id = Decoded.composite sid i ∧
          P ⟨i, r.latitude, r.longitude, r.address⟩) →
      ∀ g ∈ ((replies.foldl (fun s r => (handleMapbox s r).1) s) sid).geocoded_results,
        P g := by
  induction replies with
  | nil => intro s hs _; simpa using hs
  | cons r rest ih =>
    intro s hs hr
    simp only [List.foldl_cons]
    obtain ⟨i, hdec, hP⟩ := hr r (List.mem_cons_self _ _)
    apply ih
    · by_cases herr : truthyOptStr r.error = false
      · obtain ⟨hbase, -, -⟩ := handleMapbox_success_step s r sid i hdec herr
        rw [hbase]
        intro g hg
        simp only [List.mem_append, List.mem_singleton] at hg
        rcases hg with hg | rfl
        · exact hs g hg
        · exact hP
      · have herr2 : truthyOptStr r.error = true := by
          cases hb : truthyOptStr r.error
          · exact absurd hb herr
          · rfl
        obtain ⟨hbase, -, -⟩ := handleMapbox_error_step s r sid i hdec herr2
        rw [hbase]
        exact hs
    · intro r2 hr2
      exact hr r2 (List.mem_cons_of_mem _ hr2)

/-- Folding geocoding replies that all decode to composite tokens of one
session increments its completion counter once per reply, error or not. -/
theorem foldl_mapbox_count (replies : List MapboxResponse) (sid : String) :
    ∀ s : Sessions,
      (∀ r ∈ replies, ∃ i : Int, decodeToken r.session_id = Decoded.composite sid i) →
      ((replies.foldl (fun s r => (handleMapbox s r).1) s) sid).geocoding_count =
        (s sid).geocoding_count + replies.length := by
  induction replies with
  | nil => intro s _; simp
  | cons r rest ih =>
    intro s hr
    simp only [List.foldl_cons]
    obtain ⟨i, hdec⟩ := hr r (List.mem_cons_self _ _)
    have hstep : ((handleMapbox s r).1 sid).geocoding_count =
        (s sid).geocoding_count + 1 := by
      by_cases herr : truthyOptStr r.error = false
      · obtain ⟨hbase, -, -⟩ := handleMapbox_success_step s r sid i hdec herr
        rw [hbase]
      · have herr2 : truthyOptStr r.error = true := by
          cases hb : truthyOptStr r.error
          · exact absurd hb herr
          · rfl
        obtain ⟨hbase, -, -⟩ := handleMapbox_error_step s r sid i hdec herr2
        rw [hbase]
    rw [ih _ (fun r2 hr2 => hr r2 (List.mem_cons_of_mem _ hr2)), hstep, List.length_cons]
    omega

/-- Claim C9: a geocoding invocation is issued for index `i` below
`min(5, n)` exactly when candidate `i` has a non-empty `title`; a
title-less candidate is skipped, so (for replies that only answer issued
invocations) no coordinate is ever recorded for its index and every
completion-counter increment is accounted for by a reply to a titled
index — while `results_count`, the completion count the orchestrator
waits for, still counts every one of the first `min(5, n)` candidates. -/
theorem c9_fanout_title_gated (st : Sessions) (msg : ResearchResponse)
    (cands : List PyDict) (replies : List MapboxResponse)
    (hraw : msg.raw_search_results = some cands)
    (hsep : noSep msg.session_id = true)
    (hlast : msg.session_id.data.getLast? ≠ some '_')
    (hrep : ∀ r ∈ replies, ∃ a,
      Send.toMapbox ⟨a, r.session_id⟩ ∈ (handleResearch st msg).2) :
    (∀ i a, i < 5 →
        Send.toMapbox ⟨a, encodeToken msg.session_id i⟩ ∈ (handleResearch st msg).2 →
        i < min cands.length 5 ∧ pyTitle (cands.getD i []) ≠ "")
    ∧ (∀ i, i < min cands.length 5 → pyTitle (cands.getD i []) ≠ "" →
        Send.toMapbox ⟨pyTitle (cands.getD i []), encodeToken msg.session_id i⟩ ∈
          (handleResearch st msg).2)
    ∧ resultsCount msg = min cands.length 5
    ∧ (∀ g ∈ ((replies.foldl (fun s r => (handleMapbox s r).1) (handleResearch st msg).1)
          msg.session_id).geocoded_results,
        ∃ i : Nat, i < min cands.length 5 ∧ pyTitle (cands.getD i []) ≠ "" ∧
          g.index = (i : Int))
    ∧ ((replies.foldl (fun s r => (handleMapbox s r).1) (handleResearch st msg).1)
          msg.session_id).geocoding_count = replies.length := by
  have hmem := mem_research_sends st msg cands hraw
  have hdecode : ∀ r ∈ replies, ∃ i : Nat, i < min cands.length 5 ∧
      pyTitle (cands.getD i []) ≠ "" ∧
      decodeToken r.session_id = Decoded.composite msg.session_id (i : Int) := by
    intro r hr
    obtain ⟨a, hmem2⟩ := hrep r hr
    rw [hmem] at hmem2
    obtain ⟨i, hi, ht, heq⟩ := hmem2
    injection heq with heq2
    have hsid : r.session_id = encodeToken msg.session_id i := congrArg MapboxRequest.session_id heq2
    refine ⟨i, hi, ht, ?_⟩
    rw [hsid]
    exact decode_encode_valid _ _ hsep hlast (by omega)
  refine ⟨?_, ?_, ?_, ?_, ?_⟩
  · intro i a hi5 hmem2
    rw [hmem] at hmem2
    obtain ⟨j, hj, ht, heq⟩ := hmem2
    injection heq with heq2
    have hsid : encodeToken msg.session_id i = encodeToken msg.session_id j :=
      congrArg MapboxRequest.session_id heq2
    have hdi : decodeToken (encodeToken msg.session_id i) =
        Decoded.composite msg.session_id (i : Int) :=
      decode_encode_valid _ _ hsep hlast hi5
    have hdj : decodeToken (encodeToken msg.session_id j) =
        Decoded.composite msg.session_id (j : Int) :=
      decode_encode_valid _ _ hsep hlast (by omega)
    rw [hsid, hdj] at hdi
    have hij : (j : Int) = (i : Int) := by injection hdi
    have hij2 : j = i := by omega
    rw [← hij2]
    exact ⟨hj, ht⟩
  · intro i hi ht
    rw [hmem]
    exact ⟨i, hi, ht, rfl⟩
  · simp [resultsCount, hraw]
  · have hstart : ∀ g ∈ (((handleResearch st msg).1) msg.session_id).geocoded_results,
        (∃ i : Nat, i < min cands.length 5 ∧ pyTitle (cands.getD i []) ≠ "" ∧
          g.index = (i : Int)) := by
      rw [handleResearch_state]
      simp
    have hall : ∀ r ∈ replies, ∃ j : Int,
        decodeToken r.session_id = Decoded.composite msg.session_id j ∧
        (∃ i : Nat, i < min cands.length 5 ∧ pyTitle (cands.getD i []) ≠ "" ∧
          GeoEntry.index ⟨j, r.latitude, r.longitude, r.address⟩ = (i : Int)) := by
      intro r hr
      obtain ⟨i, hi, ht, hdec⟩ := hdecode r hr
      exact ⟨(i : Int), hdec, ⟨i, hi, ht, rfl⟩⟩
    exact foldl_mapbox_geo_inv replies msg.session_id
      (fun g => ∃ i : Nat, i < min cands.length 5 ∧ pyTitle (cands.getD i []) ≠ "" ∧
        g.index = (i : Int))
      (handleResearch st msg).1 hstart hall
  · rw [foldl_mapbox_count replies msg.session_id _ ?_]
    · rw [handleResearch_state]
      simp
    · intro r hr
      obtain ⟨i, -, -, hdec⟩ := hdecode r hr
      exact ⟨(i : Int), hdec⟩

/-- Witness for C9: three candidates with the middle one untitled; two
replies (one success, one error) for the two issued invocations; the
counter ends at exactly the number of replies. -/
theorem c9_fanout_title_gated_witness :
    (([(⟨"A", 1, 2, "s__0", none, none⟩ : MapboxResponse),
       ⟨"C", 3, 4, "s__2", some "err", none⟩].foldl
        (fun s r => (handleMapbox s r).1)
        (handleResearch initSessions
          { properties := [], search_summary := "", total_found := 0, session_id := "s",
            raw_search_results := some [titledCand "A", [], titledCand "C"] }).1)
      "s").geocoding_count = 2 :=
  (c9_fanout_title_gated initSessions
    { properties := [], search_summary := "", total_found := 0, session_id := "s",
      raw_search_results := some [titledCand "A", [], titledCand "C"] }
    [titledCand "A", [], titledCand "C"]
    [⟨"A", 1, 2, "s__0", none, none⟩, ⟨"C", 3, 4, "s__2", some "err", none⟩]
    rfl (by decide) (by decide)
    (by
      intro r hr
      have hsends : (handleResearch initSessions
          { properties := [], search_summary := "", total_found := 0, session_id := "s",
            raw_search_results := some [titledCand "A", [], titledCand "C"] }).2 =
          [Send.toMapbox ⟨"A", "s__0"⟩, Send.toMapbox ⟨"C", "s__2"⟩] := rfl
      simp only [List.mem_cons, List.not_mem_nil, or_false] at hr
      rcases hr with rfl | rfl
      · exact ⟨"A", by rw [hsends]; exact List.mem_cons_self _ _⟩
      · exact ⟨"C", by rw [hsends]; exact List.mem_cons_of_mem _ (List.mem_cons_self _ _)⟩)).2.2.2.2

/-- Delivering no geocoding replies leaves the store unchanged. -/
theorem deliverMapbox_nil (st : Sessions) : deliverMapbox st [] = (st, []) := rfl

/-! ## Claim C6 -/

/-- Claim C6: when no classification reply arrives within the first-stage
wait, `handle` returns the scoping-timeout error and the only invocation
ever issued for the request is the initial scoping request — no research,
general, geocoding or point-of-interest worker is invoked. -/
theorem c6_classification_timeout (st : Sessions) (req : ChatRequest)
    (sc : Scenario) (h : sc.scoping = none) :
    (handleChat st req sc).2.2.status = "error"
    ∧ (handleChat st req sc).2.2 = scopingTimeout
    ∧ (handleChat st req sc).2.1 = [Send.toScoping ⟨req.message, req.session_id⟩] := by
  simp [handleChat, h, scopingTimeout]

/-- Witness for C6 with an empty scenario on a fresh store. -/
theorem c6_classification_timeout_witness :
    (handleChat initSessions ⟨"hi", "t"⟩ {}).2.2.status = "error" :=
  (c6_classification_timeout initSessions ⟨"hi", "t"⟩ {} rfl).1

/-! ## Claim C7 -/

/-- Claim C7: when the classification marks a complete property search
with requirements but the research reply never arrives within the wait,
`handle` returns an error naming the unresponsive research worker. -/
theorem c7_research_timeout (st : Sessions) (sid msgText : String)
    (sm : ScopingResponse) (reqs : PyDict)
    (hsm : sm.session_id = sid)
    (hgen : sm.is_general_question = false)
    (hcomp : sm.is_complete = true)
    (hreq : sm.requirements = some reqs) :
    (handleChat st ⟨msgText, sid⟩ { scoping := some sm }).2.2 =
      ⟨"error", [("message", Val.str "Research agent did not respond in time")]⟩ := by
  simp [handleChat, handleScoping, hsm, deliverMapbox_nil, setS_eval_self,
    chatRespond, respondSearch, hgen, hcomp, hreq]

/-- Witness for C7 at a concrete complete classification. -/
theorem c7_research_timeout_witness :
    (handleChat initSessions ⟨"find homes", "t"⟩
      { scoping := some
          { agent_message := "ok"
            is_complete := true
            session_id := "t"
            requirements := some [("location", Val.str "Oakland")] } }).2.2 =
      ⟨"error", [("message", Val.str "Research agent did not respond in time")]⟩ :=
  c7_research_timeout initSessions "t" "find homes"
    { agent_message := "ok"
      is_complete := true
      session_id := "t"
      requirements := some [("location", Val.str "Oakland")] }
    [("location", Val.str "Oakland")] rfl rfl rfl rfl


/-! ## Claim C8 -/

/-- Claim C8: a request classified as a general question whose free-form
answer arrives within the wait returns success with an empty properties
list, `total_found` 0, and the summary equal to the worker's answer. -/
theorem c8_general_question_answer (st : Sessions) (sid msgText : String)
    (sm : ScopingResponse) (g : GeneralResponse)
    (hsm : sm.session_id = sid)
    (hg : g.session_id = sid)
    (hflag : sm.is_general_question = true) :
    (handleChat st ⟨msgText, sid⟩ { scoping := some sm, general := some g }).2.2 =
      ⟨"success",
        [("requirements", Val.dict []),
         ("properties", Val.list []),
         ("search_summary", Val.str g.answer),
         ("total_found", Val.num 0)]⟩ := by
  simp [handleChat, handleScoping, handleGeneral, hsm, hg, deliverMapbox_nil,
    setS_eval_self, chatRespond, hflag]

/-- Witness for C8 at a concrete general question and answer. -/
theorem c8_general_question_answer_witness :
    (handleChat initSessions ⟨"what is escrow", "t"⟩
      { scoping := some
          { agent_message := ""
            is_complete := false
            session_id := "t"
            is_general_question := true
            general_question := some "what is escrow" }
        general := some { answer := "escrow is...", session_id := "t" } }).2.2 =
      ⟨"success",
        [("requirements", Val.dict []),
         ("properties", Val.list []),
         ("search_summary", Val.str "escrow is..."),
         ("total_found", Val.num 0)]⟩ :=
  c8_general_question_answer initSessions "t" "what is escrow"
    { agent_message := ""
      is_complete := false
      session_id := "t"
      is_general_question := true
      general_question := some "what is escrow" }
    { answer := "escrow is...", session_id := "t" } rfl rfl rfl

/-! ## Claim C10 -/

/-- Claim C10: at the start of a `handle` call only the `scoping` and
`research` entries of the session record are cleared — the stored
free-form answer, geocoded results, POI results, completion counters and
legacy mapbox entry survive, and other sessions are untouched; hence a
new general-question request on a session that already stores a free-form
answer returns that previous answer even when the new reply never
arrives. -/
theorem c10_clear_only_scoping_research (st : Sessions) (sid msgText : String)
    (g : GeneralResponse) (sm : ScopingResponse)
    (hg : (st sid).general = some g)
    (hsm : sm.session_id = sid)
    (hflag : sm.is_general_question = true) :
    ((handleChat st ⟨msgText, sid⟩ {}).1 sid).scoping = none
    ∧ ((handleChat st ⟨msgText, sid⟩ {}).1 sid).research = none
    ∧ ((handleChat st ⟨msgText, sid⟩ {}).1 sid).general = (st sid).general
    ∧ ((handleChat st ⟨msgText, sid⟩ {}).1 sid).geocoded_results =
        (st sid).geocoded_results
    ∧ ((handleChat st ⟨msgText, sid⟩ {}).1 sid).geocoding_count =
        (st sid).geocoding_count
    ∧ ((handleChat st ⟨msgText, sid⟩ {}).1 sid).poi_results = (st sid).poi_results
    ∧ ((handleChat st ⟨msgText, sid⟩ {}).1 sid).poi_count = (st sid).poi_count
    ∧ ((handleChat st ⟨msgText, sid⟩ {}).1 sid).mapbox = (st sid).mapbox
    ∧ (∀ q, q ≠ sid → (handleChat st ⟨msgText, sid⟩ {}).1 q = st q)
    ∧ (handleChat st ⟨msgText, sid⟩ { scoping := some sm }).2.2 =
        ⟨"success",
          [("requirements", Val.dict []),
           ("properties", Val.list []),
           ("search_summary", Val.str g.answer),
           ("total_found", Val.num 0)]⟩ := by
  refine ⟨?_, ?_, ?_, ?_, ?_, ?_, ?_, ?_, ?_, ?_⟩
  · simp [handleChat, setS_eval_self]
  · simp [handleChat, setS_eval_self]
  · simp [handleChat, setS_eval_self]
  · simp [handleChat, setS_eval_self]
  · simp [handleChat, setS_eval_self]
  · simp [handleChat, setS_eval_self]
  · simp [handleChat, setS_eval_self]
  · simp [handleChat, setS_eval_self]
  · intro q hq
    simp [handleChat, setS_eval_ne _ _ _ _ hq]
  · simp [handleChat, handleScoping, hsm, deliverMapbox_nil, setS_eval_self,
      chatRespond, hflag, hg]

/-- Witness for C10: a session holding the answer of an earlier request. -/
theorem c10_clear_only_scoping_research_witness :
    (handleChat (handleGeneral initSessions ⟨"old answer", "t"⟩) ⟨"again", "t"⟩
      { scoping := some
          { agent_message := ""
            is_complete := false
            session_id := "t"
            is_general_question := true
            general_question := some "q" } }).2.2 =
      ⟨"success",
        [("requirements", Val.dict []),
         ("properties", Val.list []),
         ("search_summary", Val.str "old answer"),
         ("total_found", Val.num 0)]⟩ :=
  (c10_clear_only_scoping_research (handleGeneral initSessions ⟨"old answer", "t"⟩)
    "t" "again" ⟨"old answer", "t"⟩
    { agent_message := ""
      is_complete := false
      session_id := "t"
      is_general_question := true
      general_question := some "q" }
    rfl rfl rfl).2.2.2.2.2.2.2.2.2

/-! ## Claim C4 -/

theorem getD_map_of_lt (f : α → β) (l : List α) (i : Nat) (d : β) (d0 : α)
    (h : i < l.length) :
    (l.map f).getD i d = f (l.getD i d0) := by
  induction l generalizing i with
  | nil => simp at h
  | cons a rest ih =>
    cases i with
    | zero => simp
    | succ j => simpa using ih j (by simpa using h)

theorem mem_of_get? (l : List α) (i : Nat) (x : α) (h : l.get? i = some x) :
    x ∈ l := by
  induction l generalizing i with
  | nil => simp [List.get?] at h
  | cons a rest ih =>
    cases i with
    | zero =>
      simp only [List.get?] at h
      injection h with h2
      simp [h2]
    | succ j =>
      simp only [List.get?] at h
      exact List.mem_cons_of_mem _ (ih j h)

/-- With no geocoded results, no POI results and no images, the merge
passes every candidate through with only an empty `"pois"` list added. -/
theorem mergeResults_no_replies (rm : ResearchResponse) (sess : Session)
    (raws : List PyDict)
    (hgeo : sess.geocoded_results = [])
    (hpoi : sess.poi_results = [])
    (himg : rm.result_images = none) :
    mergeResults rm sess raws =
      (pyEnumerate (raws.take 5)).map (fun p => dictSet p.2 "pois" (Val.list [])) := by
  simp [mergeResults, enhanceResult, hgeo, hpoi, himg, List.find?]

/-- Claim C4: when the primary result is present with `n` candidates but
no fan-out geocoding (or POI) reply ever arrives within the bounded
waits, `handle` still returns success; the enriched list has length
`min(n, 5)` and every entry keeps its original fields, gains no
coordinate fields, and carries an empty point-of-interest list.
(The candidates are assumed not to carry coordinate keys of their own,
as the claim's "no coordinate fields" presupposes.) -/
theorem c4_fanout_timeout_degraded (st : Sessions) (sid msgText : String)
    (sm : ScopingResponse) (reqs : PyDict) (rm : ResearchResponse)
    (cands : List PyDict)
    (hsm : sm.session_id = sid)
    (hgen : sm.is_general_question = false)
    (hcomp : sm.is_complete = true)
    (hreq : sm.requirements = some reqs)
    (hrm : rm.session_id = sid)
    (hraw : rm.raw_search_results = some cands)
    (himg : rm.result_images = none)
    (hclean : ∀ c ∈ cands, dictGet? c "latitude" = none
      ∧ dictGet? c "longitude" = none ∧ dictGet? c "address" = none) :
    ((handleChat st ⟨msgText, sid⟩
        { scoping := some sm, research := some rm }).2.2.status = "success")
    ∧ ∃ es : List PyDict,
        dictGet? (handleChat st ⟨msgText, sid⟩
            { scoping := some sm, research := some rm }).2.2.data "raw_search_results"
          = some (Val.list (es.map Val.dict))
        ∧ es.length = min cands.length 5
        ∧ (∀ i, i < es.length →
            dictGet? (es.getD i []) "pois" = some (Val.list [])
            ∧ dictGet? (es.getD i []) "latitude" = none
            ∧ dictGet? (es.getD i []) "longitude" = none
            ∧ dictGet? (es.getD i []) "address" = none
            ∧ ∀ k, k ≠ "pois" →
                dictGet? (es.getD i []) k = dictGet? (cands.getD i []) k) := by
  have hresp : (handleChat st ⟨msgText, sid⟩
      { scoping := some sm, research := some rm }).2.2 =
      ⟨"success", searchSuccessData sm rm
        ((pyEnumerate (cands.take 5)).map (fun p => dictSet p.2 "pois" (Val.list [])))⟩ := by
    have hmerge := mergeResults_no_replies rm
    simp [handleChat, handleScoping, handleResearch, hsm, hrm, deliverMapbox_nil,
      setS_eval_self, chatRespond, respondSearch, hgen, hcomp, hreq, hraw,
      mergeResults, enhanceResult, himg, List.find?]
  rw [hresp]
  refine ⟨rfl,
    (pyEnumerate (cands.take 5)).map (fun p => dictSet p.2 "pois" (Val.list [])),
    ?_, ?_, ?_⟩
  · rfl
  · simp [pyEnumerate, pyEnumFrom_length, List.length_take, Nat.min_comm]
  · intro i hi
    have hlen5 : i < (cands.take 5).length := by
      simpa [pyEnumerate, pyEnumFrom_length] using hi
    have hi5 : i < 5 := by
      simp only [List.length_take] at hlen5
      omega
    have hic : i < cands.length := by
      simp only [List.length_take] at hlen5
      omega
    have hgetd : ((pyEnumerate (cands.take 5)).map
        (fun p => dictSet p.2 "pois" (Val.list []))).getD i [] =
        dictSet (cands.getD i []) "pois" (Val.list []) := by
      rw [getD_map_of_lt _ _ _ _ (0, []) (by simpa [pyEnumerate, pyEnumFrom_length]
        using hlen5)]
      rw [pyEnumerate, pyEnumFrom_getD _ _ _ _ hlen5]
      have htake : (cands.take 5).getD i [] = cands.getD i [] := by
        have h1 : cands.get? i = some (cands.getD i []) := get?_of_lt_length _ _ _ hic
        have h2 : (cands.take 5).get? i = some (cands.getD i []) := by
          rw [get?_take_of_lt _ _ _ hi5]
          exact h1
        exact getD_of_get? _ _ _ _ h2
      rw [htake]
    have hmem : cands.getD i [] ∈ cands :=
      mem_of_get? _ _ _ (get?_of_lt_length _ _ _ hic)
    obtain ⟨hlat, hlng, haddr⟩ := hclean _ hmem
    rw [hgetd]
    refine ⟨dictGet?_dictSet_self _ _ _, ?_, ?_, ?_, ?_⟩
    · rw [dictGet?_dictSet_ne _ _ _ _ (by decide)]
      exact hlat
    · rw [dictGet?_dictSet_ne _ _ _ _ (by decide)]
      exact hlng
    · rw [dictGet?_dictSet_ne _ _ _ _ (by decide)]
      exact haddr
    · intro k hk
      exact dictGet?_dictSet_ne _ _ _ _ hk

/-- Witness for C4: two clean candidates, research reply arrives, no
geocoding or POI reply arrives. -/
theorem c4_fanout_timeout_degraded_witness :
    (handleChat initSessions ⟨"find homes", "t"⟩
      { scoping := some
          { agent_message := "ok"
            is_complete := true
            session_id := "t"
            requirements := some [("location", Val.str "Oakland")] }
        research := some
          { properties := []
            search_summary := "two results"
            total_found := 2
            session_id := "t"
            raw_search_results := some [titledCand "house one", titledCand "house two"] } }).2.2.status
      = "success" :=
  (c4_fanout_timeout_degraded initSessions "t" "find homes"
    { agent_message := "ok"
      is_complete := true
      session_id := "t"
      requirements := some [("location", Val.str "Oakland")] }
    [("location", Val.str "Oakland")]
    { properties := []
      search_summary := "two results"
      total_found := 2
      session_id := "t"
      raw_search_results := some [titledCand "house one", titledCand "house two"] }
    [titledCand "house one", titledCand "house two"]
    rfl rfl rfl rfl rfl rfl rfl
    (by
      intro c hc
      simp only [List.mem_cons, List.not_mem_nil, or_false] at hc
      rcases hc with rfl | rfl <;> exact ⟨rfl, rfl, rfl⟩)).1
